import Mathlib

/-!
Verification of the health-reporting and status-aggregation logic of the
`learn-docker` demo repository.

The repository contains two small Flask applications:
* `02-images-best-practices/app.py` — a single-container demo whose `/health`
  endpoint reports a constant status with some host metrics;
* `03-compose-orchestration/webapp/app.py` — a multi-container demo that probes
  a PostgreSQL database and a Redis cache, aggregates the probe outcomes into a
  health document, and exposes metrics endpoints.

This file shallowly embeds the Python source: pure fragments become Lean
functions; interaction with the external world (database reachability, the
Redis key store, clock readings) is made explicit as function arguments.
Exceptions raised by the client libraries are modelled with `Except`, and the
`try/except` probe wrappers become total functions into `Option`.
-/

/-- A failure cause raised by a dependency client library during a connection
attempt: the taxonomy the spec names (network/connection, auth, timeout). -/
inductive FailureCause where
  | connectionError (msg : String)
  | authError (msg : String)
  | timeoutError (msg : String)
deriving DecidableEq

/-- Embeds `get_db_connection` (03-compose, lines 200-207): the body attempts
`psycopg2.connect(**DB_CONFIG)`; the attempt's outcome is the argument.  The
`try/except` converts any raised exception into the return value `None`. -/
def get_db_connection {α : Type} (attempt : Except FailureCause α) : Option α :=
  match attempt with
  | .ok conn => some conn
  | .error _ => none

/-- Embeds `get_redis_connection` (03-compose, lines 209-217): the body builds
a client and issues `r.ping()`; the combined outcome of constructor plus ping
is the argument.  The `try/except` converts any raised exception into `None`. -/
def get_redis_connection {α : Type} (attempt : Except FailureCause α) : Option α :=
  match attempt with
  | .ok r => some r
  | .error _ => none

/-- The JSON document returned by the compose app's `/health` endpoint:
a `status` string, a `timestamp` string, and a `services` object embedded as
an association list in Python dict insertion order. -/
structure HealthDoc where
  status : String
  timestamp : String
  services : List (String × String)
deriving DecidableEq

/-- Embeds the `/health` handler (03-compose, lines 386-413).  `conn?` is the
result of `get_db_connection()` and `r?` the result of `get_redis_connection()`;
`ts` is the `datetime.now().isoformat()` reading.  The handler starts from
status `"healthy"`, records a `database` entry and degrades on `None`, then
records a `redis` entry and degrades on `None`. -/
def health {α β : Type} (conn? : Option α) (r? : Option β) (ts : String) : HealthDoc :=
  let st0 := "healthy"
  let dbSvc := match conn? with
    | some _ => "healthy"
    | none => "unhealthy"
  let st1 := match conn? with
    | some _ => st0
    | none => "degraded"
  let redisSvc := match r? with
    | some _ => "healthy"
    | none => "unhealthy"
  let st2 := match r? with
    | some _ => st1
    | none => "degraded"
  { status := st2, timestamp := ts, services := [("database", dbSvc), ("redis", redisSvc)] }

/-- The value stored under one key of the `stats` dict built by
`get_system_stats`: either a string or an integer. -/
inductive StatVal where
  | s (v : String)
  | n (v : Nat)
deriving DecidableEq

/-- What the database-side queries of `get_system_stats` would observe when the
connection and the queries succeed: the `information_schema.tables` count, the
`metrics` row for `total_requests` (absent if the row is missing, mirroring
`result[0] if result else 0`), and the `pg_stat_activity` count. -/
structure DbView where
  table_count : Nat
  total_requests_row : Option Nat
  db_connections : Nat
deriving DecidableEq

/-- What the Redis-side queries of `get_system_stats` would observe when they
succeed: `info().get('used_memory_human')`, `dbsize()`, and the stored
`cache_hits` value (absent if the key is unset, mirroring
`int(r.get('cache_hits') or 0)`). -/
structure RedisView where
  used_memory_human : Option String
  dbsize : Nat
  cache_hits_row : Option Nat
deriving DecidableEq

/-- The database half of `get_system_stats` (03-compose, lines 283-313).
`conn?` is the probe result; `queryOk` is whether the three queries inside the
`try` succeed.  On query failure the `except` branch overwrites every key with
its error value, so the resulting dict does not depend on where the exception
occurred.  Keys appear in Python dict insertion order. -/
def db_stats (conn? : Option DbView) (queryOk : Bool) : List (String × StatVal) :=
  match conn? with
  | some v =>
    if queryOk then
      [("table_count", .n v.table_count),
       ("total_requests", .n (v.total_requests_row.getD 0)),
       ("db_connections", .n v.db_connections),
       ("db_status", .s "CONNECTED"),
       ("db_status_class", .s "status-healthy")]
    else
      [("db_status", .s "ERROR"),
       ("db_status_class", .s "status-error"),
       ("table_count", .n 0),
       ("total_requests", .n 0),
       ("db_connections", .n 0)]
  | none =>
      [("db_status", .s "DISCONNECTED"),
       ("db_status_class", .s "status-error"),
       ("table_count", .n 0),
       ("total_requests", .n 0),
       ("db_connections", .n 0)]

/-- The Redis half of `get_system_stats` (03-compose, lines 315-338). -/
def redis_stats (r? : Option RedisView) (queryOk : Bool) : List (String × StatVal) :=
  match r? with
  | some v =>
    if queryOk then
      [("redis_status", .s "CONNECTED"),
       ("redis_status_class", .s "status-healthy"),
       ("redis_memory", .s (v.used_memory_human.getD "N/A")),
       ("redis_keys", .n v.dbsize),
       ("cache_hits", .n (v.cache_hits_row.getD 0))]
    else
      [("redis_status", .s "ERROR"),
       ("redis_status_class", .s "status-error"),
       ("redis_memory", .s "N/A"),
       ("redis_keys", .n 0),
       ("cache_hits", .n 0)]
  | none =>
      [("redis_status", .s "DISCONNECTED"),
       ("redis_status_class", .s "status-error"),
       ("redis_memory", .s "N/A"),
       ("redis_keys", .n 0),
       ("cache_hits", .n 0)]

/-- Embeds `get_system_stats` (03-compose, lines 279-340): the database block
followed by the Redis block, merged into one dict. -/
def get_system_stats (conn? : Option DbView) (dbOk : Bool)
    (r? : Option RedisView) (redisOk : Bool) : List (String × StatVal) :=
  db_stats conn? dbOk ++ redis_stats r? redisOk

/-- Embeds the effect of `log_request` (03-compose, lines 257-277) on the
`total_requests` metric: the counter is incremented exactly when the database
connection and the two statements succeed (`logOk`); any exception is caught
and leaves the counter unchanged (no commit). -/
def log_request (logOk : Bool) (counter : Nat) : Nat :=
  if logOk then counter + 1 else counter

/-- The value the `total_requests` key of a `get_system_stats` dict carries,
as an external poller of `/api/stats` would read it. -/
def stats_total_requests (conn? : Option DbView) (dbOk : Bool)
    (r? : Option RedisView) (redisOk : Bool) : Nat :=
  match List.lookup "total_requests" (get_system_stats conn? dbOk r? redisOk) with
  | some (.n k) => k
  | _ => 0

/-- The database availability observed by the `get_system_stats` read inside
one `/api/stats` call: connection and queries succeed, connection refused, or
connection succeeds but a query raises. -/
inductive DbAvail where
  | ok
  | noConn
  | queryFail
deriving DecidableEq

/-- The `total_requests` value reported by one `/api/stats` call (03-compose,
lines 471-474) whose `get_system_stats` ran against availability `a`, with the
metric counter at `counter` (the `metrics` row present), and fixed incidental
observations `tc`, `dc`. -/
def api_stats_report (a : DbAvail) (tc dc counter : Nat) : Nat :=
  match a with
  | .ok => stats_total_requests (some ⟨tc, some counter, dc⟩) true none true
  | .noConn => stats_total_requests none true none true
  | .queryFail => stats_total_requests (some ⟨tc, some counter, dc⟩) false none true

/-- A sequence of `/api/stats` calls with no intervening writes by other
handlers.  Each call is a pair: whether its own `log_request` committed, and
the database availability seen by its `get_system_stats` read.  Returns the
list of `total_requests` values reported, threading the metric counter. -/
def api_stats_run (tc dc : Nat) : List (Bool × DbAvail) → Nat → List Nat
  | [], _ => []
  | (lo, a) :: rest, counter =>
      let c' := log_request lo counter
      api_stats_report a tc dc c' :: api_stats_run tc dc rest c'

/-- Embeds the cache-hit increment of the `/` handler (03-compose, lines
342-352): `r = get_redis_connection(); if r: r.incr('cache_hits')`.  The
stored `cache_hits` value is incremented exactly when the connection attempt
succeeded; nothing in the handler conditions the increment on an actual cache
hit. -/
def home_cache_hits (redisUp : Bool) (hits : Nat) : Nat :=
  if redisUp then hits + 1 else hits

/-- The Redis key space as the demo uses it: string keys to string values,
most recent write first. -/
abbrev RedisStore := List (String × String)

/-- Embeds `r.setex(key, 60, value)` as far as the key space is concerned:
a SETEX on a key already present overwrites its binding, so any prior binding
is removed before the new one is recorded. -/
def rsetex (store : RedisStore) (k v : String) : RedisStore :=
  (k, v) :: List.eraseP (fun e => e.1 == k) store

/-- Embeds `r.get(key)`. -/
def rget (store : RedisStore) (k : String) : Option String :=
  List.lookup k store

/-- Embeds `r.dbsize()`: the number of keys in the key space.  `rsetex` keeps
one binding per key, so on a store without duplicate keys this is the number
of bindings — in particular it does not grow when a SETEX overwrites. -/
def rdbsize (store : RedisStore) : Nat :=
  store.length

/-- Python's `str` on the nonnegative integer `int(time.time())`: the decimal
digit string, most significant digit first. -/
def pyStr (n : Nat) : String :=
  if n = 0 then "0" else ((Nat.digits 10 n).reverse.map Nat.digitChar).asString

/-- The numeric value of a decimal digit character; left inverse of
`Nat.digitChar` on digits. -/
def charDigit (c : Char) : Nat :=
  c.toNat - 48

/-- Reads a decimal digit string back into a number; used to show `pyStr` is
injective. -/
def pyParse (str : String) : Nat :=
  Nat.ofDigits 10 (str.data.map charDigit).reverse

/-- Embeds `test_key = f"test:{int(time.time())}"` (03-compose, line 448). -/
def test_key (t : Nat) : String :=
  "test:" ++ pyStr t

/-- Embeds `test_value = f"Hello from Redis at {datetime.now().isoformat()}"`
(03-compose, line 449). -/
def test_value (now : String) : String :=
  "Hello from Redis at " ++ now

/-- The JSON document returned by `/api/test-cache`: the success shape with
its fields in order, or the error shape with a message. -/
inductive TestCacheResp where
  | success (tkey tval : String) (retrieved : Option String)
      (redis_version memory_usage : String) (total_keys : Nat) (ts : String)
  | error (message : String)
deriving DecidableEq

/-- Embeds the `/api/test-cache` handler (03-compose, lines 441-469).  `r?` is
the probe result carrying the current key space; `opError` is an exception
raised inside the `try` (caught into the error document); `t` is
`int(time.time())`, `now` the datetime reading, `rv` and `mu` the `info()`
observations, `ts` the response timestamp. -/
def test_cache (r? : Option RedisStore) (opError : Option String)
    (t : Nat) (now rv mu ts : String) : TestCacheResp :=
  match r? with
  | none => .error "Cannot connect to Redis"
  | some store =>
    match opError with
    | some msg => .error msg
    | none =>
      let k := test_key t
      let v := test_value now
      let store' := rsetex store k v
      .success k v (rget store' k) rv mu (rdbsize store') ts

/-- The `retrieved_value` field of a `/api/test-cache` document (absent on the
error shape). -/
def TestCacheResp.retrieved_value : TestCacheResp → Option String
  | .success _ _ r _ _ _ _ => r
  | .error _ => none

/-- The `test_value` field of a `/api/test-cache` document (absent on the
error shape). -/
def TestCacheResp.test_value_field : TestCacheResp → Option String
  | .success _ v _ _ _ _ _ => some v
  | .error _ => none

/-- The `test_key` field of a `/api/test-cache` document (absent on the error
shape). -/
def TestCacheResp.test_key_field : TestCacheResp → Option String
  | .success k _ _ _ _ _ _ => some k
  | .error _ => none

/-- The JSON document returned by the images-demo app's `/health` endpoint
(02-images, lines 67-74): a constant `"healthy"` status together with a
timestamp, a memory reading and a version string.  The handler consults no
dependency: its only inputs are host readings. -/
structure Health02Doc where
  status : String
  timestamp : String
  memory_mb : Nat
  version : String
deriving DecidableEq

/-- Embeds the images-demo `/health` handler: the status field is the literal
`"healthy"` regardless of the host readings. -/
def health02 (mem : Nat) (ts ver : String) : Health02Doc :=
  { status := "healthy", timestamp := ts, memory_mb := mem, version := ver }

/-! ## Theorems -/

/-- Claim C1: the `/health` aggregation yields `degraded` overall status iff at
least one dependency probe returned no connection (the check is unreachable),
and `healthy` exactly when both probes returned a connection. -/
theorem health_degraded_iff {α β : Type} (conn? : Option α) (r? : Option β) (ts : String) :
    ((health conn? r? ts).status = "degraded" ↔ (conn?.isSome = false ∨ r?.isSome = false)) ∧
    ((health conn? r? ts).status = "healthy" ↔ (conn?.isSome = true ∧ r?.isSome = true)) := by
  cases conn? <;> cases r? <;> simp [health]

/-- Claim C2: for every failure cause (connection, auth, timeout), each probe
returns the value `none` — the unreachable marker the `/health` handler turns
into an `unhealthy` entry — rather than propagating the exception; the probes
are total functions, so no fault ever crosses their boundary. -/
theorem probe_never_raises (cause : FailureCause) (ts : String) :
    @get_db_connection Unit (Except.error cause) = none ∧
    @get_redis_connection Unit (Except.error cause) = none ∧
    (health (@get_db_connection Unit (Except.error cause))
        (@get_redis_connection Unit (Except.error cause)) ts).services =
      [("database", "unhealthy"), ("redis", "unhealthy")] := by
  exact ⟨rfl, rfl, rfl⟩

/-- Claim C3: for every combination of probe outcomes, the aggregation lists
exactly one check per configured dependency, in declaration order (`database`
then `redis`), and each entry's value is determined by its own probe alone, so
one probe's failure cannot suppress the other's entry. -/
theorem health_services_shape {α β : Type} (conn? : Option α) (r? : Option β) (ts : String) :
    (health conn? r? ts).services =
      [("database", if conn?.isSome then "healthy" else "unhealthy"),
       ("redis", if r?.isSome then "healthy" else "unhealthy")] := by
  cases conn? <;> cases r? <;> rfl

/-- Claim C4: with both probes returning a connection, `/health` produces the
healthy document; with the database probe returning `None` and the cache probe
returning a connection, it produces the degraded document with `database`
marked unhealthy and `redis` healthy. -/
theorem health_scenarios (ts : String) :
    health (some ()) (some ()) ts =
      { status := "healthy", timestamp := ts,
        services := [("database", "healthy"), ("redis", "healthy")] } ∧
    health (none : Option Unit) (some ()) ts =
      { status := "degraded", timestamp := ts,
        services := [("database", "unhealthy"), ("redis", "healthy")] } := by
  exact ⟨rfl, rfl⟩

/-- Claim C7: the machine health document is a pure function of the probe
outcomes: two runs with identical outcomes agree on every field except the
timestamp, whatever the two clock readings were. -/
theorem health_deterministic {α β : Type} (conn? : Option α) (r? : Option β)
    (ts ts' : String) :
    (health conn? r? ts).status = (health conn? r? ts').status ∧
    (health conn? r? ts).services = (health conn? r? ts').services := by
  cases conn? <;> cases r? <;> exact ⟨rfl, rfl⟩

/-- Claim C9: the images-demo `/health` handler consults no dependency — its
inputs are only host readings — and its status field is the constant
`"healthy"`, so it can never report a degraded or unhealthy status. -/
theorem health02_always_healthy (mem : Nat) (ts ver : String) :
    (health02 mem ts ver).status = "healthy" ∧
    (health02 mem ts ver).status ≠ "degraded" ∧
    (health02 mem ts ver).status ≠ "unhealthy" := by
  refine ⟨rfl, ?_, ?_⟩ <;> simp [health02]

/-- A digit character decodes back to the digit it encodes. -/
theorem charDigit_digitChar {d : Nat} (h : d < 10) :
    charDigit (Nat.digitChar d) = d := by
  interval_cases d <;> decide

/-- String data of an append is the append of the data lists. -/
theorem data_append_eq (a b : String) : (a ++ b).data = a.data ++ b.data := by
  cases a
  cases b
  rfl

/-- `pyParse` is a left inverse of `pyStr`. -/
theorem pyParse_pyStr (n : Nat) : pyParse (pyStr n) = n := by
  by_cases h : n = 0
  · subst h
    decide
  · unfold pyStr pyParse
    simp only [h, if_false]
    have hdata : (((Nat.digits 10 n).reverse.map Nat.digitChar).asString).data
        = (Nat.digits 10 n).reverse.map Nat.digitChar := rfl
    rw [hdata, List.map_map]
    have hmap : (Nat.digits 10 n).reverse.map (charDigit ∘ Nat.digitChar)
        = (Nat.digits 10 n).reverse := by
      have hid : (Nat.digits 10 n).reverse.map (charDigit ∘ Nat.digitChar)
          = (Nat.digits 10 n).reverse.map id := by
        apply List.map_congr_left
        intro d hd
        exact charDigit_digitChar
          (Nat.digits_lt_base (by norm_num) (List.mem_reverse.mp hd))
      rw [hid, List.map_id]
    rw [hmap, List.reverse_reverse, Nat.ofDigits_digits]

/-- The decimal rendering of distinct numbers is distinct. -/
theorem pyStr_inj {m n : Nat} (h : pyStr m = pyStr n) : m = n := by
  have hm := pyParse_pyStr m
  rw [h, pyParse_pyStr] at hm
  exact hm.symm

/-- Keys generated by `/api/test-cache` for distinct clock seconds differ. -/
theorem test_key_inj {t1 t2 : Nat} (h : test_key t1 = test_key t2) : t1 = t2 := by
  apply pyStr_inj
  unfold test_key at h
  have hd := congrArg String.data h
  rw [data_append_eq, data_append_eq] at hd
  exact String.toList_inj.mp (List.append_cancel_left hd)

/-- Claim C8: on every successful `/api/test-cache` call the response's
`retrieved_value` equals its `test_value` (the set-then-get round trip through
the key space), and the test key is generated from the clock second, so calls
in distinct seconds use distinct keys. -/
theorem test_cache_roundtrip (store : RedisStore) (t : Nat) (now rv mu ts : String) :
    (test_cache (some store) none t now rv mu ts).test_key_field = some (test_key t) ∧
    (test_cache (some store) none t now rv mu ts).test_value_field = some (test_value now) ∧
    (test_cache (some store) none t now rv mu ts).retrieved_value = some (test_value now) ∧
    ∀ t1 t2 : Nat, t1 ≠ t2 → test_key t1 ≠ test_key t2 := by
  refine ⟨rfl, rfl, ?_, ?_⟩
  · simp [test_cache, rsetex, rget, TestCacheResp.retrieved_value, List.lookup]
  · intro t1 t2 hne heq
    exact hne (test_key_inj heq)

/-- Witness for claim C8 at a concrete store, clock and observation set. -/
theorem test_cache_roundtrip_witness :
    (test_cache (some ([] : RedisStore)) none 3 "N" "7" "1M" "TS").test_key_field
        = some (test_key 3) ∧
    (test_cache (some ([] : RedisStore)) none 3 "N" "7" "1M" "TS").test_value_field
        = some (test_value "N") ∧
    (test_cache (some ([] : RedisStore)) none 3 "N" "7" "1M" "TS").retrieved_value
        = some (test_value "N") ∧
    test_key 3 ≠ test_key 4 :=
  ⟨(test_cache_roundtrip [] 3 "N" "7" "1M" "TS").1,
   (test_cache_roundtrip [] 3 "N" "7" "1M" "TS").2.1,
   (test_cache_roundtrip [] 3 "N" "7" "1M" "TS").2.2.1,
   (test_cache_roundtrip [] 3 "N" "7" "1M" "TS").2.2.2 3 4 (by decide)⟩

/-- Claim C5 counterexample: a two-call sequence with no writes by other
handlers, where the database read fails on the second call, reports `[1, 0]` —
a strictly decreasing pair — so the reported `total_requests` values are not
non-decreasing over every sequence of `/api/stats` calls. -/
theorem api_stats_not_monotone :
    ¬ List.Chain' (fun a b => a ≤ b)
      (api_stats_run 0 0 [(true, DbAvail.ok), (true, DbAvail.noConn)] 0) := by
  intro hch
  have hrun : api_stats_run 0 0 [(true, DbAvail.ok), (true, DbAvail.noConn)] 0 = [1, 0] := rfl
  rw [hrun] at hch
  exact absurd (List.chain'_cons.mp hch).1 (by decide)

/-- A call's own `log_request` never decreases the metric counter. -/
theorem log_request_le (lo : Bool) (counter : Nat) :
    counter ≤ log_request lo counter := by
  cases lo <;> simp [log_request]

/-- With every database read succeeding, a run of `/api/stats` calls reports a
non-decreasing sequence bounded below by the starting counter. -/
theorem api_stats_run_ok_bound (tc dc : Nat) (calls : List (Bool × DbAvail)) (counter : Nat) :
    (∀ c ∈ calls, c.2 = DbAvail.ok) →
    List.Chain' (fun a b => a ≤ b) (api_stats_run tc dc calls counter) ∧
    ∀ x ∈ api_stats_run tc dc calls counter, counter ≤ x := by
  induction calls generalizing counter with
  | nil =>
    intro _
    simp [api_stats_run]
  | cons c rest ih =>
    intro h
    obtain ⟨lo, a⟩ := c
    have ha : a = DbAvail.ok := h (lo, a) (List.mem_cons_self _ _)
    subst ha
    have hrest : ∀ x ∈ rest, x.2 = DbAvail.ok := fun x hx => h x (List.mem_cons_of_mem _ hx)
    obtain ⟨ihChain, ihBound⟩ := ih (log_request lo counter) hrest
    have hrun : api_stats_run tc dc ((lo, DbAvail.ok) :: rest) counter
        = log_request lo counter :: api_stats_run tc dc rest (log_request lo counter) := rfl
    rw [hrun]
    constructor
    · rw [List.chain'_cons']
      refine ⟨fun y hy => ihBound y (List.mem_of_mem_head? hy), ihChain⟩
    · intro x hx
      rcases List.mem_cons.mp hx with hx | hx
      · rw [hx]
        exact log_request_le lo counter
      · exact le_trans (log_request_le lo counter) (ihBound x hx)

/-- Claim C5 (amended): for every sequence of `/api/stats` calls with no
intervening writes by other handlers, provided the database connection and
queries succeed for every call's `get_system_stats` read, the reported
`total_requests` values are non-decreasing; a mid-sequence outage instead
resets the reported count to 0, which can decrease it. -/
theorem api_stats_monotone (tc dc : Nat) (calls : List (Bool × DbAvail)) (counter : Nat)
    (h : ∀ c ∈ calls, c.2 = DbAvail.ok) :
    List.Chain' (fun a b => a ≤ b) (api_stats_run tc dc calls counter) :=
  (api_stats_run_ok_bound tc dc calls counter h).1

/-- Witness for claim C5 at a concrete two-call sequence. -/
theorem api_stats_monotone_witness :
    List.Chain' (fun a b => a ≤ b)
      (api_stats_run 1 2 [(true, DbAvail.ok), (false, DbAvail.ok)] 0) :=
  api_stats_monotone 1 2 [(true, DbAvail.ok), (false, DbAvail.ok)] 0 (by decide)

/-- Claim C6 counterexample: on a home-page view where the Redis connection
attempt fails, the handler skips `r.incr('cache_hits')`, so the counter is not
incremented on that view — the increment is not unconditional. -/
theorem home_cache_hits_not_unconditional :
    ¬ home_cache_hits false 0 = 0 + 1 := by
  decide

/-- Claim C6 (amended): on every home-page view where the Redis connection
succeeds, the stored `cache_hits` counter is incremented by exactly one —
regardless of whether an actual cache hit occurred, since nothing in the
handler tests for one — while a view with Redis unreachable leaves the counter
unchanged. -/
theorem home_cache_hits_increment (redisUp : Bool) (hits : Nat) (h : redisUp = true) :
    home_cache_hits redisUp hits = hits + 1 ∧ home_cache_hits false hits = hits := by
  subst h
  exact ⟨rfl, rfl⟩

/-- Witness for claim C6 at a concrete counter value. -/
theorem home_cache_hits_increment_witness :
    home_cache_hits true 5 = 5 + 1 ∧ home_cache_hits false 5 = 5 :=
  home_cache_hits_increment true 5 rfl

/-- Claim C10: whenever the database connection fails or a database query
raises, `get_system_stats` still carries the keys `table_count`,
`total_requests` and `db_connections`, each with the value 0 — it neither
omits them nor signals an error — so the reported request count resets to 0
during an outage instead of preserving the last known value. -/
theorem get_system_stats_zero_on_outage (conn? : Option DbView) (dbOk : Bool)
    (r? : Option RedisView) (redisOk : Bool)
    (h : conn? = none ∨ dbOk = false) :
    List.lookup "table_count" (get_system_stats conn? dbOk r? redisOk) = some (.n 0) ∧
    List.lookup "total_requests" (get_system_stats conn? dbOk r? redisOk) = some (.n 0) ∧
    List.lookup "db_connections" (get_system_stats conn? dbOk r? redisOk) = some (.n 0) := by
  rcases h with h | h
  · subst h
    exact ⟨rfl, rfl, rfl⟩
  · subst h
    cases conn? <;> exact ⟨rfl, rfl, rfl⟩

/-- Witness for claim C10 with the connection refused. -/
theorem get_system_stats_zero_on_outage_witness :
    List.lookup "table_count" (get_system_stats none true none true) = some (.n 0) ∧
    List.lookup "total_requests" (get_system_stats none true none true) = some (.n 0) ∧
    List.lookup "db_connections" (get_system_stats none true none true) = some (.n 0) :=
  get_system_stats_zero_on_outage none true none true (Or.inl rfl)
